/-
Verification of the Fkdptaxi backend (src/backend.js) against its
natural-language specification.

The file shallowly embeds the relevant parts of the Express backend:
  * `formatPhoneNumberForTwilio` — the phone-number normalizer;
  * the `/api/verify-otp` handler;
  * the `/api/send-booking-sms` handler (message template construction,
    the two regex cleanups and trim, and the response branches);
  * the `/api/get-tolls` handler (price aggregation over the
    `routes[0].travelAdvisory.tollInfo.estimatedPrice` list, the final
    NaN safeguard, and upstream-error forwarding).

JavaScript numbers are modelled by `JSNum`: a rational, positive or
negative infinity, or NaN, which is enough to follow the arithmetic the
toll handler performs (`Number(x) || 0`, IEEE addition, division by 1e9,
`isNaN`, `toFixed(2)`/`parseFloat`).  Strings are Lean `String`s and the
string pipeline works over `List Char`.
-/
import Mathlib

namespace Fkdptaxi

/-! ## JavaScript number model -/

/-- A JavaScript number: a (finite) rational, `Infinity`, `-Infinity`, or
`NaN`.  Fields of upstream payloads that the code passes through
`Number(...)` are stored as the resulting `JSNum` (a non-numeric or
missing raw field yields `nan`). -/
inductive JSNum where
  | num (q : ℚ)
  | inf
  | negInf
  | nan
deriving DecidableEq, Repr

namespace JSNum

/-- JS `isNaN(x)` for a JS number. -/
def isNaN : JSNum → Bool
  | .nan => true
  | _ => false

/-- A JS number is finite when it is an actual rational (not `±Infinity`,
not `NaN`). -/
def isFinite : JSNum → Bool
  | .num _ => true
  | _ => false

/-- IEEE-style addition on JS numbers: `NaN` is absorbing and
`Infinity + -Infinity = NaN`. -/
def add : JSNum → JSNum → JSNum
  | .nan, _ => .nan
  | _, .nan => .nan
  | .inf, .negInf => .nan
  | .negInf, .inf => .nan
  | .inf, _ => .inf
  | _, .inf => .inf
  | .negInf, _ => .negInf
  | _, .negInf => .negInf
  | .num a, .num b => .num (a + b)

/-- Embeds `x / 1_000_000_000` for a JS number `x` (the divisor is a
finite positive constant, so infinities keep their sign and `NaN`
propagates). -/
def div1e9 : JSNum → JSNum
  | .num q => .num (q / 1000000000)
  | .inf => .inf
  | .negInf => .negInf
  | .nan => .nan

end JSNum

/-- Embeds the JS idiom `x || 0` on a number `x`: the falsy numbers are
`0`, `-0` and `NaN`, and all of them are replaced by `0` (for `0` itself
the replacement is the identity), so only `NaN` changes. -/
def jsOr0 : JSNum → JSNum
  | .nan => .num 0
  | x => x

/-! ## Phone-number normalizer

```js
const formatPhoneNumberForTwilio = (number) => {
    if (!number) return null;
    // Remove any non-digit characters except for a leading '+'
    let cleanedNumber = number.replace(/[^\x5cd+]/g, '');
    if (!cleanedNumber.startsWith('+')) {
        return `+91${cleanedNumber}`;
    }
    return cleanedNumber;
};
```
`null`/missing input is `none`; the falsy string is `""`.  The regex
`[^\x5cd+]` removes every character that is neither a digit nor a `'+'`
(note: it keeps every `'+'`, not only a leading one).  `startsWith('+')`
is the head-character test. -/

/-- The character filter of `number.replace(/[^\x5cd+]/g, '')`: keep
digits and `'+'`. -/
def cleanChars (s : String) : List Char :=
  s.toList.filter (fun c => c.isDigit || c == '+')

/-- The phone-number normalizer `formatPhoneNumberForTwilio`. -/
def formatPhoneNumberForTwilio : Option String → Option String
  | none => none
  | some s =>
    if s = "" then none
    else
      let cleaned := cleanChars s
      if cleaned.head? = some '+' then some (String.mk cleaned)
      else some (String.mk ('+' :: '9' :: '1' :: cleaned))

/-! ## HTTP responses

A handler's observable outcome: the HTTP status it sets and the JSON
body it sends (`res.json` without `res.status(...)` defaults to 200). -/

/-- The JSON bodies the embedded handlers produce. -/
inductive RespBody where
  | msg (message : String)
  | msgStatus (message status : String)
  | msgDetails (message : String) (details : Option String)
  | tolls (tollAmount : JSNum)
deriving DecidableEq, Repr

/-- An HTTP response: status code plus JSON body. -/
structure Response where
  status : Nat
  body : RespBody
deriving DecidableEq, Repr

/-- JS truthiness test for an optional string request field: `null` /
missing and the empty string are falsy. -/
def jsFalsyS : Option String → Bool
  | none => true
  | some s => s == ""

/-! ## Toll handler data model (`/api/get-tolls`)

The upstream (Google Routes) success payload, as far as the handler
reads it.  Every level the code null-checks is an `Option`; `units` and
`nanos` are stored as the value `Number(price.units)` / `Number(price.nanos)`
produces (`JSNum.nan` for a non-numeric or missing raw field). -/

/-- One `estimatedPrice` entry. -/
structure TollPrice where
  currencyCode : String
  units : JSNum
  nanos : JSNum
deriving DecidableEq, Repr

/-- The `travelAdvisory.tollInfo` level. -/
structure TollInfo where
  estimatedPrice : Option (List TollPrice)
deriving DecidableEq, Repr

/-- The `routes[i].travelAdvisory` level. -/
structure TravelAdvisory where
  tollInfo : Option TollInfo
deriving DecidableEq, Repr

/-- One element of `data.routes`. -/
structure Route where
  travelAdvisory : Option TravelAdvisory
deriving DecidableEq, Repr

/-- The parsed success body `data`. -/
structure RoutesData where
  routes : Option (List Route)
deriving DecidableEq, Repr

/-- The per-entry step of the `estimatedPrice.forEach` loop:

```js
if (price.currencyCode === 'INR') {
    const units = Number(price.units) || 0;
    const nanos = Number(price.nanos) || 0;
    if (!isNaN(units) && !isNaN(nanos)) {
        calculatedToll += units + nanos / 1_000_000_000;
    }
}
```
-/
def addPrice (acc : JSNum) (price : TollPrice) : JSNum :=
  if price.currencyCode = "INR" then
    let units := jsOr0 price.units
    let nanos := jsOr0 price.nanos
    if ¬ units.isNaN = true ∧ ¬ nanos.isNaN = true then
      acc.add (units.add nanos.div1e9)
    else acc
  else acc

/-- The navigation `data.routes && data.routes.length > 0`,
`routes[0].travelAdvisory`, `.tollInfo`, `.estimatedPrice`, with every
absent level yielding the empty list of price entries. -/
def pricesOf (data : RoutesData) : List TollPrice :=
  match data.routes with
  | some (firstRoute :: _) =>
    match firstRoute.travelAdvisory with
    | some ta =>
      match ta.tollInfo with
      | some ti => ti.estimatedPrice.getD []
      | none => []
    | none => []
  | _ => []

/-- The value `calculatedToll` after the `forEach` loop: the fold of `addPrice`
over the extracted price entries, starting from `0`. -/
def calculatedTollRaw (data : RoutesData) : JSNum :=
  (pricesOf data).foldl addPrice (.num 0)

/-- The final type safeguard:

```js
if (typeof calculatedToll !== 'number' || isNaN(calculatedToll)) {
    calculatedToll = 0;
}
```
In the model the value is always of number type, so only the `isNaN`
disjunct can fire. -/
def tollSafeguard (t : JSNum) : JSNum :=
  if t.isNaN then .num 0 else t

/-- Rounding to the nearest integer, halves up (`toFixed` rounding on
the non-negative amounts at hand), as a directly computable function. -/
def jsRound (q : ℚ) : ℤ :=
  Rat.floor (q + 1 / 2)

/-- Embeds `parseFloat(x.toFixed(2))`: a finite value is rounded to two
decimal places; `Infinity`/`-Infinity` round-trip through the strings
`"Infinity"`/`"-Infinity"` unchanged, and `NaN` through `"NaN"`. -/
def roundTo2 : JSNum → JSNum
  | .num q => .num ((jsRound (q * 100) : ℚ) / 100)
  | .inf => .inf
  | .negInf => .negInf
  | .nan => .nan

/-- The `tollAmount` value of the 200 response for a parsed success
payload. -/
def tollAmountOf (data : RoutesData) : JSNum :=
  roundTo2 (tollSafeguard (calculatedTollRaw data))

/-- The upstream error body `errorData` when `!googleResponse.ok`:
`error` is the optional nested error object (with its optional
`message`), `message` the optional top-level message. -/
structure GoogleErrObj where
  message : Option String
deriving DecidableEq, Repr

/-- A parsed upstream error body. -/
structure GoogleErrBody where
  error : Option GoogleErrObj
  message : Option String
deriving DecidableEq, Repr

/-- The outcome of the `fetch` to the routing provider: either a
non-`ok` HTTP response (with its status and its parsed error body, or
`none` when `googleResponse.json()` threw), or a parsed success body. -/
inductive GoogleOutcome where
  | httpError (status : Nat) (body : Option GoogleErrBody)
  | success (data : RoutesData)
deriving DecidableEq, Repr

/-- The `details` field of the forwarded upstream error:

```js
let errorData = {};
try { errorData = await googleResponse.json(); }
catch (e) { errorData = { message: 'Could not parse error response from Google API.' }; }
...
details: errorData.error ? errorData.error.message
                         : (errorData.message || 'Unknown error from Google API'),
```
`none` as result models a JSON field set to `undefined` (dropped on
serialization). -/
def googleErrDetails (body : Option GoogleErrBody) : Option String :=
  let errorData :=
    body.getD { error := none,
                message := some "Could not parse error response from Google API." }
  match errorData.error with
  | some errObj => errObj.message
  | none =>
    match errorData.message with
    | some m => if m = "" then some "Unknown error from Google API" else some m
    | none => some "Unknown error from Google API"

/-- The `/api/get-tolls` handler, as a function of the two required
request fields and the upstream outcome. -/
def getTollsHandler (pickup dropoff : Option String)
    (outcome : GoogleOutcome) : Response :=
  if jsFalsyS pickup || jsFalsyS dropoff then
    ⟨400, .msg "Pickup and dropoff locations are required."⟩
  else
    match outcome with
    | .httpError status body =>
      ⟨status, .msgDetails "Error fetching route from Google Maps API"
                (googleErrDetails body)⟩
    | .success data =>
      ⟨200, .tolls (tollAmountOf data)⟩

/-! ## Verify-OTP handler (`/api/verify-otp`) -/

/-- A thrown Twilio error, as far as the catch blocks read it:
`error.status`, `error.message`, and whether `error instanceof Error`. -/
structure TwilioErr where
  status : Option Nat
  message : Option String
  isErrorInstance : Bool
deriving DecidableEq, Repr

/-- JS truthiness of an optional numeric field (`0` and missing are
falsy). -/
def jsFalsyN : Option Nat → Bool
  | none => true
  | some n => n == 0

/-- The client error message the verify-OTP catch block derives:

```js
let errorMessageForClient = 'Verification failed. Please try again.';
if (error.status && error.message) {
    errorMessageForClient = `Twilio API Error (${error.status}): ${error.message}`;
} else if (error instanceof Error) {
    errorMessageForClient = `Server Error: ${error.message}`;
}
```
-/
def verifyErrMsg (e : TwilioErr) : String :=
  if ¬ jsFalsyN e.status = true ∧ ¬ jsFalsyS e.message = true then
    "Twilio API Error (" ++ toString (e.status.getD 0) ++ "): " ++ e.message.getD ""
  else if e.isErrorInstance then
    "Server Error: " ++ e.message.getD ""
  else "Verification failed. Please try again."

/-- The result of the provider's verification check: a normally
returned `verificationCheck.status`, or a thrown provider-level
exception. -/
inductive VerifyOutcome where
  | result (status : String)
  | exn (e : TwilioErr)
deriving DecidableEq, Repr

/-- The `/api/verify-otp` handler, as a function of the two request
fields and the provider outcome. -/
def verifyOtpHandler (phoneNumber otpCode : Option String)
    (outcome : VerifyOutcome) : Response :=
  let formatted := formatPhoneNumberForTwilio phoneNumber
  if jsFalsyS formatted || jsFalsyS otpCode then
    ⟨400, .msg "Phone number and OTP code are required."⟩
  else
    match outcome with
    | .result st =>
      if st = "approved" then
        ⟨200, .msgStatus "OTP verified successfully!" "approved"⟩
      else
        ⟨400, .msgStatus "Invalid OTP. Please try again." st⟩
    | .exn e => ⟨500, .msg (verifyErrMsg e)⟩

/-! ## Booking-SMS handler (`/api/send-booking-sms`) -/

/-- A JavaScript value, as far as `bookingDetails.fareDetails?.total`
can hold one: absent/`undefined`, `null`, a number, a string, or a
boolean. -/
inductive JSVal where
  | undef
  | null
  | num (q : ℚ)
  | str (s : String)
  | bool (b : Bool)
deriving DecidableEq, Repr

/-- The `bookingDetails.fareDetails` object. -/
structure FareDetails where
  total : JSVal
deriving DecidableEq, Repr

/-- The `bookingDetails` object; each optional text field is `Option String`
(absent = `undefined`). -/
structure BookingDetails where
  bookingId : Option String := none
  pickup : Option String := none
  dropoff : Option String := none
  pickupDate : Option String := none
  pickupTime : Option String := none
  fareDetails : Option FareDetails := none
  driverName : Option String := none
  driverVehicle : Option String := none
deriving DecidableEq, Repr

/-- JS `field || fallback` for an optional string field: a missing or
empty string is replaced by the fallback. -/
def jsOrElse (o : Option String) (fallback : String) : String :=
  match o with
  | some s => if s = "" then fallback else s
  | none => fallback

/-- JS `Number.prototype.toFixed(2)` on a finite number, built directly as
its character list: optional sign, integer part, `'.'`, two fraction
digits. -/
def toFixed2 (q : ℚ) : String :=
  let n : ℤ := jsRound (q * 100)
  let m : ℕ := n.natAbs
  String.mk ((if n < 0 then ['-'] else []) ++
    ((toString (m / 100)).toList ++
      ('.' :: ((if m % 100 < 10 then ['0'] else []) ++ (toString (m % 100)).toList))))

/-- The fare fragment `bookingDetails.fareDetails?.total?.toFixed(2) || 'N/A'`.
Optional chaining yields `undefined` (hence the `'N/A'` fallback) when
`fareDetails` or `total` is nullish; calling `toFixed` on a
non-number, non-nullish `total` throws a `TypeError`, modelled as
`Except.error ()`. -/
def fareText (fareDetails : Option FareDetails) : Except Unit String :=
  match fareDetails with
  | none => .ok "N/A"
  | some fd =>
    match fd.total with
    | .undef => .ok "N/A"
    | .null => .ok "N/A"
    | .num q => .ok (let s := toFixed2 q; if s = "" then "N/A" else s)
    | .str _ => .error ()
    | .bool _ => .error ()

/-- The whitespace class of the template cleanup regexes, restricted to
the whitespace characters that can occur here. -/
def isJsWs (c : Char) : Bool :=
  c == ' ' || c == '\n' || c == '\t' || c == '\r'

/-- The `^\x5cs*\n` alternative of the first cleanup regex: the greedy
match runs through the last newline of the leading whitespace run (if
that run has one), which is removed. -/
def stripHeadNl (l : List Char) : List Char :=
  let ws := l.takeWhile isJsWs
  let rest := l.drop ws.length
  if (ws.reverse.dropWhile (fun c => ¬ c = '\n')) = [] then l
  else (ws.reverse.takeWhile (fun c => ¬ c = '\n')).reverse ++ rest

/-- The `\n\x5cs*$` alternative of the first cleanup regex: the
leftmost match starts at the first newline of the trailing whitespace
run (if that run has one) and removes everything from it on. -/
def stripTailNl (l : List Char) : List Char :=
  let ws := (l.reverse.takeWhile isJsWs).reverse
  let body := l.take (l.length - ws.length)
  if '\n' ∈ ws then body ++ ws.takeWhile (fun c => ¬ c = '\n')
  else l

/-- JS `.replace(/\x5cs+/g, ' ')`: every maximal whitespace run becomes a
single space.  The boolean records whether the previous character was
part of a whitespace run. -/
def collapseWsAux : Bool → List Char → List Char
  | _, [] => []
  | prevWs, c :: rest =>
    if isJsWs c then
      (if prevWs then [] else [' ']) ++ collapseWsAux true rest
    else c :: collapseWsAux false rest

/-- JS `.trim()`: drop leading and trailing whitespace. -/
def jsTrim (l : List Char) : List Char :=
  ((l.dropWhile isJsWs).reverse.dropWhile isJsWs).reverse

/-- The message body of the booking-confirmation SMS: the template
literal of the handler (12-space indented lines, `â‚¹`
being the three characters that precede the fare in the source file),
then `.replace(/^\x5cs*\n|\n\x5cs*$/g, '').replace(/\x5cs+/g, ' ').trim()`.
The fare fragment can throw, so the result is an `Except`. -/
def messageBody (bd : BookingDetails) : Except Unit String :=
  match fareText bd.fareDetails with
  | .error e => .error e
  | .ok fare =>
  let raw : String :=
    "\n            Fasttrack Drop Taxi Booking Confirmed!" ++
    "\n            ID: " ++ jsOrElse bd.bookingId "N/A" ++
    "\n            From: " ++ jsOrElse bd.pickup "N/A" ++
    "\n            To: " ++ jsOrElse bd.dropoff "N/A" ++
    "\n            Date: " ++ jsOrElse bd.pickupDate "N/A" ++ " " ++
      jsOrElse bd.pickupTime "N/A" ++
    "\n            Fare: â‚¹" ++ fare ++
    "\n            Driver: " ++ jsOrElse bd.driverName "Assigned Soon" ++
      " (" ++ jsOrElse bd.driverVehicle "N/A" ++ ")" ++
    "\n            Download App for updates!\n        "
  .ok (String.mk (jsTrim (collapseWsAux false (stripTailNl (stripHeadNl raw.toList)))))

/-- The client error message the booking-SMS catch block derives
(no `instanceof Error` branch in this handler). -/
def smsErrMsg (e : TwilioErr) : String :=
  if ¬ jsFalsyN e.status = true ∧ ¬ jsFalsyS e.message = true then
    "Twilio API Error (" ++ toString (e.status.getD 0) ++ "): " ++ e.message.getD ""
  else "Failed to send booking confirmation SMS."

/-- The `/api/send-booking-sms` handler, as a function of the request
fields, the configured sender number (`TWILIO_PHONE_NUMBER`), and the
outcome of `twilioClient.messages.create` (`none` = success, `some e` =
thrown error).  The message body is built before the phone number is
formatted, exactly as in the source; a `TypeError` thrown there lands
in the catch block, whose error has no `status`, so the generic message
is sent with status 500. -/
def sendBookingSmsHandler (phoneNumber : Option String)
    (bookingDetails : Option BookingDetails)
    (twilioPhone : Option String) (sendOutcome : Option TwilioErr) : Response :=
  match bookingDetails with
  | none => ⟨400, .msg "Phone number and booking details are required."⟩
  | some bd =>
    if jsFalsyS phoneNumber then
      ⟨400, .msg "Phone number and booking details are required."⟩
    else
      match messageBody bd with
      | .error _ => ⟨500, .msg "Failed to send booking confirmation SMS."⟩
      | .ok _body =>
        let formatted := formatPhoneNumberForTwilio phoneNumber
        if jsFalsyS formatted then
          ⟨400, .msg "Invalid phone number format for SMS."⟩
        else if jsFalsyS twilioPhone then
          ⟨500, .msg "Server configuration error: Twilio phone number for sending SMS is missing."⟩
        else
          match sendOutcome with
          | none => ⟨200, .msg "Booking confirmation SMS sent."⟩
          | some e => ⟨500, .msg (smsErrMsg e)⟩

/-! ## Spec-side definitions

These follow the specification's words (§4.5 step 4–5) for the toll
aggregation, to be compared with the code-side `tollAmountOf`. -/

/-- Spec-side coercion of a price piece: a finite number stays itself,
a non-numeric or missing piece counts as 0. -/
def or0Q : JSNum → ℚ
  | .num q => q
  | _ => 0

/-- The piece coerces to a finite number or to `NaN` (the cases the
spec's "coerce to numbers (non-numeric/missing → 0)" wording covers;
infinite coercions are outside it and are treated separately). -/
def finOrNaN : JSNum → Bool
  | .inf => false
  | .negInf => false
  | _ => true

/-- Modelled from the spec: "For each entry whose `currencyCode == "INR"`
... add `units + nanos / 1_000_000_000` to a running total"; entries in
any other currency contribute nothing. -/
def specTollSum (prices : List TollPrice) : ℚ :=
  ((prices.filter (fun p => p.currencyCode == "INR")).map
    (fun p => or0Q p.units + or0Q p.nanos / 1000000000)).sum

/-- Rounding a rational to 2 decimal places. -/
def round2Q (q : ℚ) : ℚ :=
  ((jsRound (q * 100) : ℤ) : ℚ) / 100

/-- Two consecutive spaces occur somewhere in the character list. -/
def hasTwoSpaces : List Char → Bool
  | ' ' :: ' ' :: _ => true
  | _ :: rest => hasTwoSpaces rest
  | [] => false

/-- A booking-details object with every optional field absent. -/
def allAbsentBooking : BookingDetails := {}

/-- The message the booking-SMS handler builds when every optional
field is absent. -/
def allAbsentMessage : String :=
  "Fasttrack Drop Taxi Booking Confirmed! ID: N/A From: N/A To: N/A " ++
  "Date: N/A N/A Fare: â‚¹N/A Driver: Assigned Soon (N/A) Download App for updates!"

/-- Concrete upstream payload: one INR entry with `units = 120`,
`nanos = 500000000` (the specification's own example). -/
def inrExampleData : RoutesData :=
  ⟨some [⟨some ⟨some ⟨some [⟨"INR", .num 120, .num 500000000⟩]⟩⟩⟩]⟩

/-- Concrete upstream payload: one INR entry whose `units` coerced to
`NaN` and whose `nanos` is `500000000`. -/
def nanUnitsData : RoutesData :=
  ⟨some [⟨some ⟨some ⟨some [⟨"INR", .nan, .num 500000000⟩]⟩⟩⟩]⟩

/-- A USD price entry (ignored by the aggregation). -/
def usdEntry : TollPrice := ⟨"USD", .num 5, .num 0⟩

/-- An INR price entry worth exactly 10 rupees. -/
def inrTenEntry : TollPrice := ⟨"INR", .num 10, .num 0⟩

/-- An INR price entry whose `units` coerced to `NaN` and whose `nanos`
is `500000000`. -/
def nanUnitsEntry : TollPrice := ⟨"INR", .nan, .num 500000000⟩

/-- Concrete upstream payload: one INR entry whose `units` coerced to
`Infinity`. -/
def infUnitsData : RoutesData :=
  ⟨some [⟨some ⟨some ⟨some [⟨"INR", .inf, .num 0⟩]⟩⟩⟩]⟩

/-! ## Helper lemmas -/

/-- Characters surviving the cleaning filter are digits or `'+'`. -/
lemma cleanChars_mem {s : String} {c : Char} (h : c ∈ cleanChars s) :
    c.isDigit = true ∨ c = '+' := by
  rcases List.mem_filter.mp h with ⟨-, hp⟩
  rcases Bool.or_eq_true .. |>.mp hp with h1 | h2
  · exact Or.inl h1
  · exact Or.inr (by simpa using h2)

/-- If the cleaned string does not start with `'+'` and has no `'+'`
past its head, none of its characters is `'+'`. -/
lemma cleanChars_all_digit {s : String} {c : Char}
    (hmem : c ∈ cleanChars s)
    (hh : ¬ (cleanChars s).head? = some '+')
    (hz : ∀ x ∈ (cleanChars s).tail, ¬ x = '+') : c.isDigit = true := by
  rcases cleanChars_mem hmem with hd | rfl
  · exact hd
  · exfalso
    cases hcl : cleanChars s with
    | nil => rw [hcl] at hmem; exact List.not_mem_nil _ hmem
    | cons d t =>
      rw [hcl] at hmem hh hz
      rcases List.mem_cons.mp hmem with he | ht
      · exact hh (by rw [← he]; rfl)
      · exact hz _ ht rfl

/-- Two responses with different status codes differ. -/
lemma response_ne_of_status {a b : Response} (h : ¬ a.status = b.status) :
    ¬ a = b := fun he => h (he ▸ rfl)

/-- The fold of `addPrice` from a finite accumulator computes the
spec-side sum, provided every INR entry's pieces coerced to a finite
number or `NaN`. -/
lemma foldl_addPrice_eq (l : List TollPrice) :
    ∀ a : ℚ,
      (∀ p ∈ l, p.currencyCode = "INR" →
        finOrNaN p.units = true ∧ finOrNaN p.nanos = true) →
      l.foldl addPrice (.num a) = .num (a + specTollSum l) := by
  induction l with
  | nil => intro a _; simp [specTollSum]
  | cons p t ih =>
    intro a h
    rw [List.foldl_cons]
    by_cases hc : p.currencyCode = "INR"
    · obtain ⟨hu, hn⟩ := h p (List.mem_cons_self ..) hc
      have step : addPrice (.num a) p =
          .num (a + (or0Q p.units + or0Q p.nanos / 1000000000)) := by
        unfold addPrice
        rw [if_pos hc]
        cases hu' : p.units <;> cases hn' : p.nanos <;>
          simp_all [finOrNaN, jsOr0, JSNum.isNaN, JSNum.add, JSNum.div1e9, or0Q]
      rw [step, ih _ (fun q hq hcq => h q (List.mem_cons_of_mem _ hq) hcq)]
      have hsum : specTollSum (p :: t) =
          (or0Q p.units + or0Q p.nanos / 1000000000) + specTollSum t := by
        simp [specTollSum, List.filter_cons, hc]
      rw [hsum]
      exact congrArg JSNum.num (by ring)
    · have step : addPrice (.num a) p = .num a := by
        unfold addPrice; rw [if_neg hc]
      rw [step, ih _ (fun q hq hcq => h q (List.mem_cons_of_mem _ hq) hcq)]
      have hsum : specTollSum (p :: t) = specTollSum t := by
        simp [specTollSum, List.filter_cons, hc]
      rw [hsum]

/-- The normalizer maps a non-empty string to a non-empty string. -/
lemma formatPhone_some_nonempty (s : String) (h : ¬ s = "") :
    ∃ r, formatPhoneNumberForTwilio (some s) = some r ∧ ¬ r = "" := by
  simp only [formatPhoneNumberForTwilio]
  rw [if_neg h]
  by_cases hh : (cleanChars s).head? = some '+'
  · rw [if_pos hh]
    refine ⟨_, rfl, fun he => ?_⟩
    have hdata : cleanChars s = [] := congrArg String.data he
    rw [hdata] at hh
    exact Option.noConfusion hh
  · rw [if_neg hh]
    refine ⟨_, rfl, fun he => ?_⟩
    have hdata : '+' :: '9' :: '1' :: cleanChars s = [] := congrArg String.data he
    exact List.noConfusion hdata

/-- The function `jsRound` fixes every integer. -/
lemma jsRound_intCast (z : ℤ) : jsRound ((z : ℚ)) = z := by
  have h : jsRound (z : ℚ) = ⌊(z : ℚ) + 1 / 2⌋ := rfl
  rw [h, Int.floor_eq_iff]
  constructor <;> norm_num

/-- Evaluation fact `jsRound 0 = 0`. -/
lemma jsRound_zero : jsRound (0 : ℚ) = 0 := by
  exact_mod_cast jsRound_intCast 0

/-! ## Claim theorems -/

/-- C8: the phone-number normalizer satisfies all five spec test
vectors: `"9876543210" ↦ "+919876543210"`, `"+19876543210"` unchanged,
`"" ↦ null`, `null ↦ null`, and `"98-765 43210" ↦ "+919876543210"`. -/
theorem phone_normalizer_test_vectors :
    formatPhoneNumberForTwilio (some "9876543210") = some "+919876543210" ∧
    formatPhoneNumberForTwilio (some "+19876543210") = some "+19876543210" ∧
    formatPhoneNumberForTwilio (some "") = none ∧
    formatPhoneNumberForTwilio none = none ∧
    formatPhoneNumberForTwilio (some "98-765 43210") = some "+919876543210" :=
  ⟨by decide, by decide, by decide, rfl, by decide⟩

/-- C2 counterexample: the regex keeps every `'+'`, not just a leading
one, so the input `"98+76"` normalizes to `"+9198+76"`, which contains
a `'+'` after its first character — the claimed `+<digits>` shape
fails. -/
theorem phone_plus_kept_counterexample :
    formatPhoneNumberForTwilio (some "98+76") = some "+9198+76" ∧
    '+' ∈ (String.toList "+9198+76").tail :=
  ⟨by decide, by decide⟩

/-- C2 (amended): for every non-empty string the normalizer strips
every character that is neither a digit nor a `'+'` (all `'+'`
characters are kept, not only a leading one); the output starts with
`'+'` and afterwards contains only digits and `'+'` characters, and it
matches `+<digits>` whenever the cleaned input has no `'+'` past its
first character. -/
theorem phone_normalizer_shape (s : String) (h : ¬ s = "") :
    ∃ r, formatPhoneNumberForTwilio (some s) = some r ∧
      r.toList.head? = some '+' ∧
      (∀ c ∈ r.toList.tail, c.isDigit = true ∨ c = '+') ∧
      ((∀ x ∈ (cleanChars s).tail, ¬ x = '+') →
        ∀ c ∈ r.toList.tail, c.isDigit = true) := by
  simp only [formatPhoneNumberForTwilio]
  rw [if_neg h]
  by_cases hh : (cleanChars s).head? = some '+'
  · rw [if_pos hh]
    refine ⟨_, rfl, hh, ?_, ?_⟩
    · intro c hc
      exact cleanChars_mem (List.mem_of_mem_tail hc)
    · intro hz c hc
      rcases cleanChars_mem (List.mem_of_mem_tail hc) with hd | he
      · exact hd
      · exact absurd he (hz c hc)
  · rw [if_neg hh]
    refine ⟨_, rfl, rfl, ?_, ?_⟩
    · intro c hc
      replace hc : c ∈ '9' :: '1' :: cleanChars s := hc
      rcases List.mem_cons.mp hc with rfl | hc2
      · exact Or.inl (by decide)
      rcases List.mem_cons.mp hc2 with rfl | hc3
      · exact Or.inl (by decide)
      · exact cleanChars_mem hc3
    · intro hz c hc
      replace hc : c ∈ '9' :: '1' :: cleanChars s := hc
      rcases List.mem_cons.mp hc with rfl | hc2
      · decide
      rcases List.mem_cons.mp hc2 with rfl | hc3
      · decide
      · exact cleanChars_all_digit hc3 hh hz

/-- C2 witness: the amended shape at the concrete input
`"98-765 43210"`. -/
theorem phone_normalizer_shape_witness :
    ∃ r, formatPhoneNumberForTwilio (some "98-765 43210") = some r ∧
      r.toList.head? = some '+' ∧
      (∀ c ∈ r.toList.tail, c.isDigit = true ∨ c = '+') ∧
      ((∀ x ∈ (cleanChars "98-765 43210").tail, ¬ x = '+') →
        ∀ c ∈ r.toList.tail, c.isDigit = true) :=
  phone_normalizer_shape "98-765 43210" (by decide)

/-- C9 counterexample: `"+"` is a truthy string with no digits, yet it
normalizes to `"+"`, not to `"+91"` as the claim's parenthetical
asserts. -/
theorem digitless_plus_string_counterexample :
    formatPhoneNumberForTwilio (some "+") = some "+" ∧
    ¬ ("+" : String) = "+91" ∧
    (∀ c ∈ String.toList "+", c.isDigit = false) :=
  ⟨by decide, by decide, by decide⟩

/-- C9 (amended): for every truthy (non-empty) string input the
normalizer returns a truthy (non-empty) string, never null — strings
with no digits and no `'+'` characters normalize to exactly `"+91"` —
and consequently, once the initial missing-field check has passed, the
booking-SMS handler never answers with the invalid-phone-format 400
response. -/
theorem phone_format_truthy_no_invalid_400 (s : String) (h : ¬ s = "")
    (bd : BookingDetails) (tp : Option String) (so : Option TwilioErr) :
    (∃ r, formatPhoneNumberForTwilio (some s) = some r ∧ ¬ r = "") ∧
    ((∀ c ∈ s.toList, c.isDigit = false ∧ ¬ c = '+') →
      formatPhoneNumberForTwilio (some s) = some "+91") ∧
    ¬ sendBookingSmsHandler (some s) (some bd) tp so =
        ⟨400, RespBody.msg "Invalid phone number format for SMS."⟩ := by
  obtain ⟨r, hr, hrne⟩ := formatPhone_some_nonempty s h
  refine ⟨⟨r, hr, hrne⟩, ?_, ?_⟩
  · intro hall
    have hclean : cleanChars s = [] := by
      unfold cleanChars
      rw [List.filter_eq_nil_iff]
      intro a ha
      obtain ⟨h1, h2⟩ := hall a ha
      simp [h1, h2]
    simp only [formatPhoneNumberForTwilio]
    rw [if_neg h, hclean]
    decide
  · have hfals : jsFalsyS (some s) = false := by
      simp [jsFalsyS]; exact h
    have hfals2 : jsFalsyS (some r) = false := by
      simp [jsFalsyS]; exact hrne
    cases hmb : messageBody bd with
    | error e =>
      simp [sendBookingSmsHandler, hfals, hmb, Response.mk.injEq]
    | ok body =>
      by_cases htp : jsFalsyS tp = true
      · simp [sendBookingSmsHandler, hfals, hmb, hr, hfals2, htp, Response.mk.injEq]
      · cases so with
        | none =>
          simp [sendBookingSmsHandler, hfals, hmb, hr, hfals2, htp, Response.mk.injEq]
        | some e =>
          simp [sendBookingSmsHandler, hfals, hmb, hr, hfals2, htp, Response.mk.injEq]

/-- C9 witness: the amended statement at the concrete input
`"9876543210"` with all-absent booking details. -/
theorem phone_format_truthy_no_invalid_400_witness :
    (∃ r, formatPhoneNumberForTwilio (some "9876543210") = some r ∧ ¬ r = "") ∧
    ((∀ c ∈ String.toList "9876543210", c.isDigit = false ∧ ¬ c = '+') →
      formatPhoneNumberForTwilio (some "9876543210") = some "+91") ∧
    ¬ sendBookingSmsHandler (some "9876543210") (some allAbsentBooking)
        (some "+15550001111") none =
        ⟨400, RespBody.msg "Invalid phone number format for SMS."⟩ :=
  phone_format_truthy_no_invalid_400 "9876543210" (by decide)
    allAbsentBooking (some "+15550001111") none

/-- C1: for every upstream routing response accepted as successful in
which each INR entry's `units` and `nanos` coerce to a finite number or
`NaN`, the handler responds 200 with `tollAmount` equal to the sum over
the INR entries of `units + nanos / 1_000_000_000` (non-numeric or
missing pieces counting as 0), rounded to 2 decimal places; other
currencies contribute nothing, and an absent `routes` /
`travelAdvisory` / `tollInfo` / `estimatedPrice` level gives total 0
with no exception. -/
theorem toll_success_sums_inr_prices (pickup dropoff : String)
    (hpu : ¬ pickup = "") (hdp : ¬ dropoff = "") (data : RoutesData)
    (h : ∀ p ∈ pricesOf data, p.currencyCode = "INR" →
      finOrNaN p.units = true ∧ finOrNaN p.nanos = true) :
    getTollsHandler (some pickup) (some dropoff) (.success data) =
      ⟨200, .tolls (.num (round2Q (specTollSum (pricesOf data))))⟩ ∧
    getTollsHandler (some pickup) (some dropoff) (.success ⟨none⟩) =
      ⟨200, .tolls (.num 0)⟩ := by
  have hfalsp : jsFalsyS (some pickup) = false := by simp [jsFalsyS]; exact hpu
  have hfalsd : jsFalsyS (some dropoff) = false := by simp [jsFalsyS]; exact hdp
  constructor
  · have hfold := foldl_addPrice_eq (pricesOf data) 0 h
    simp [getTollsHandler, hfalsp, hfalsd, tollAmountOf, calculatedTollRaw, hfold,
      tollSafeguard, JSNum.isNaN, roundTo2, round2Q]
  · simp [getTollsHandler, hfalsp, hfalsd, tollAmountOf, calculatedTollRaw,
      pricesOf, tollSafeguard, JSNum.isNaN, roundTo2, jsRound_zero]

/-- C1 witness: the specification's own example
`estimatedPrice: [{currencyCode:"INR", units:"120", nanos:"500000000"}]`
yields `tollAmount == 120.5`. -/
theorem toll_success_sums_inr_prices_witness :
    getTollsHandler (some "Chennai") (some "Madurai") (.success inrExampleData) =
      ⟨200, .tolls (.num (round2Q (specTollSum (pricesOf inrExampleData))))⟩ ∧
    round2Q (specTollSum (pricesOf inrExampleData)) = 241 / 2 := by
  refine ⟨(toll_success_sums_inr_prices "Chennai" "Madurai" (by decide) (by decide)
      inrExampleData (by decide)).1, ?_⟩
  have hs : specTollSum (pricesOf inrExampleData) = 241 / 2 := by
    simp [specTollSum, pricesOf, inrExampleData, or0Q]
    norm_num
  have h1 : ((241 : ℚ) / 2) * 100 = 12050 := by norm_num
  have h2 : jsRound (12050 : ℚ) = 12050 := by exact_mod_cast jsRound_intCast 12050
  rw [hs]
  simp only [round2Q]
  rw [h1, h2]
  norm_num

/-- C3 counterexample: an INR entry whose `units` coerced to `NaN` and
whose `nanos` is `500000000` contributes `0.5` — not `0` as the claim
states — because `Number(units) || 0` turns the `NaN` into `0` before
the `isNaN` skip test, so the skip branch never fires and the `nanos`
part still counts. -/
theorem nan_units_entry_counterexample :
    getTollsHandler (some "Chennai") (some "Salem") (.success nanUnitsData) =
      ⟨200, .tolls (.num (1 / 2))⟩ ∧
    ¬ ((1 : ℚ) / 2 = 0) := by
  constructor
  · have hfold : calculatedTollRaw nanUnitsData = .num (1 / 2) := by
      simp [calculatedTollRaw, pricesOf, nanUnitsData, addPrice, jsOr0,
        JSNum.isNaN, JSNum.add, JSNum.div1e9]
      norm_num
    have hta : tollAmountOf nanUnitsData = .num (1 / 2) := by
      have h2 : jsRound (50 : ℚ) = 50 := by exact_mod_cast jsRound_intCast 50
      simp [tollAmountOf, hfold, tollSafeguard, JSNum.isNaN, roundTo2]
      rw [show ((2 : ℚ))⁻¹ * 100 = 50 by norm_num, h2]
      norm_num
    have hfp : jsFalsyS (some "Chennai") = false := by decide
    have hfd : jsFalsyS (some "Salem") = false := by decide
    simp [getTollsHandler, hfp, hfd, hta]
  · norm_num

/-- C3 (amended): an INR price entry with non-numeric `units` is not
skipped: its `units` part is coerced to 0, its `nanos` part still
contributes `nanos / 1_000_000_000`, and the remaining entries are
processed normally. -/
theorem nan_units_entry_contributes_nanos (l1 l2 : List TollPrice)
    (p : TollPrice) (n : ℚ)
    (hc : p.currencyCode = "INR") (hu : p.units = .nan) (hn : p.nanos = .num n)
    (h1 : ∀ q ∈ l1, q.currencyCode = "INR" →
      finOrNaN q.units = true ∧ finOrNaN q.nanos = true)
    (h2 : ∀ q ∈ l2, q.currencyCode = "INR" →
      finOrNaN q.units = true ∧ finOrNaN q.nanos = true) :
    (l1 ++ p :: l2).foldl addPrice (.num 0) =
      .num (specTollSum l1 + (0 + n / 1000000000) + specTollSum l2) := by
  rw [List.foldl_append, foldl_addPrice_eq l1 0 h1, List.foldl_cons]
  have hstep : addPrice (.num (0 + specTollSum l1)) p =
      .num ((0 + specTollSum l1) + (0 + n / 1000000000)) := by
    simp [addPrice, hc, hu, hn, jsOr0, JSNum.isNaN, JSNum.add, JSNum.div1e9]
  rw [hstep, foldl_addPrice_eq l2 _ h2]
  exact congrArg JSNum.num (by ring)

/-- C3 witness for the amended statement: a USD entry, then the
NaN-units INR entry, then a further INR entry; the sum is `10.5`. -/
theorem nan_units_entry_contributes_nanos_witness :
    ([usdEntry] ++ nanUnitsEntry :: [inrTenEntry]).foldl addPrice (.num 0) =
      .num (specTollSum [usdEntry] + (0 + 500000000 / 1000000000) +
        specTollSum [inrTenEntry]) ∧
    (specTollSum [usdEntry] + (0 + 500000000 / 1000000000) +
        specTollSum [inrTenEntry] : ℚ) = 21 / 2 :=
  ⟨nan_units_entry_contributes_nanos [usdEntry] [inrTenEntry] nanUnitsEntry
      500000000 rfl rfl rfl (by decide) (by decide),
    by simp [specTollSum, or0Q, usdEntry, inrTenEntry]; norm_num⟩

/-- C4 counterexample: an INR entry whose `units` coerced to `Infinity`
drives the total to `Infinity`; the safeguard tests only
`typeof !== 'number' || isNaN`, which `Infinity` passes, so the 200
response carries a non-finite `tollAmount`. -/
theorem infinite_toll_passes_safeguard_counterexample :
    getTollsHandler (some "Chennai") (some "Trichy") (.success infUnitsData) =
      ⟨200, .tolls .inf⟩ ∧
    JSNum.inf.isFinite = false :=
  ⟨by decide, rfl⟩

/-- C4 (amended): the final safeguard forces the total to 0 only when
it is `NaN` (or not of number type); hence the `tollAmount` of a
success response is never `NaN`, but an infinite total passes the check
unchanged, so `tollAmount` is not always finite. -/
theorem tollAmount_never_nan (data : RoutesData) :
    (tollAmountOf data).isNaN = false := by
  unfold tollAmountOf
  cases h : calculatedTollRaw data <;>
    simp [tollSafeguard, JSNum.isNaN, roundTo2]

/-- C5: for every upstream HTTP error the handler forwards exactly the
upstream status code, with the best-effort detail message: the nested
`error.message` when an `error` object is present, the top-level
`message` otherwise, the parse-failure text when the body was
unparseable, and a generic fallback when no usable field exists. -/
theorem upstream_error_status_forwarded (pickup dropoff : String)
    (hpu : ¬ pickup = "") (hdp : ¬ dropoff = "")
    (status : Nat) (body : Option GoogleErrBody) :
    (getTollsHandler (some pickup) (some dropoff) (.httpError status body)).status
        = status ∧
    getTollsHandler (some pickup) (some dropoff) (.httpError status body) =
      ⟨status, .msgDetails "Error fetching route from Google Maps API"
        (googleErrDetails body)⟩ ∧
    googleErrDetails none = some "Could not parse error response from Google API." ∧
    (∀ eo : GoogleErrObj, googleErrDetails (some ⟨some eo, none⟩) = eo.message) ∧
    googleErrDetails (some ⟨none, none⟩) = some "Unknown error from Google API" := by
  have hfalsp : jsFalsyS (some pickup) = false := by simp [jsFalsyS]; exact hpu
  have hfalsd : jsFalsyS (some dropoff) = false := by simp [jsFalsyS]; exact hdp
  refine ⟨?_, ?_, by decide, fun eo => rfl, by decide⟩ <;>
    simp [getTollsHandler, hfalsp, hfalsd]

/-- C5 witness: a 403 upstream response with unparseable body is
forwarded as 403 with the parse-failure detail, and a parsed body with
a nested error message surfaces that message. -/
theorem upstream_error_status_forwarded_witness :
    (getTollsHandler (some "Chennai") (some "Vellore") (.httpError 403 none)).status
        = 403 ∧
    getTollsHandler (some "Chennai") (some "Vellore") (.httpError 403 none) =
      ⟨403, .msgDetails "Error fetching route from Google Maps API"
        (googleErrDetails none)⟩ ∧
    googleErrDetails (some ⟨some ⟨some "quota exceeded"⟩, none⟩) =
      some "quota exceeded" := by
  have h := upstream_error_status_forwarded "Chennai" "Vellore"
    (by decide) (by decide) 403 none
  exact ⟨h.1, h.2.1, h.2.2.2.1 ⟨some "quota exceeded"⟩⟩

/-- C6: with both fields present, the verify-OTP handler answers 200
with status `"approved"` exactly when the provider-reported status is
`"approved"`; any other reported status yields 400 with that status
echoed; and a provider-level exception yields 500. -/
theorem verify_otp_status_mapping (phone otp : Option String)
    (hp : jsFalsyS (formatPhoneNumberForTwilio phone) = false)
    (hc : jsFalsyS otp = false) :
    (∀ st : String,
      ((verifyOtpHandler phone otp (.result st)).status = 200 ↔ st = "approved") ∧
      (st = "approved" → verifyOtpHandler phone otp (.result st) =
        ⟨200, .msgStatus "OTP verified successfully!" "approved"⟩) ∧
      (¬ st = "approved" → verifyOtpHandler phone otp (.result st) =
        ⟨400, .msgStatus "Invalid OTP. Please try again." st⟩)) ∧
    (∀ e : TwilioErr, (verifyOtpHandler phone otp (.exn e)).status = 500) := by
  constructor
  · intro st
    by_cases hst : st = "approved"
    · subst hst
      refine ⟨?_, fun _ => ?_, fun hne => absurd rfl hne⟩ <;>
        simp [verifyOtpHandler, hp, hc]
    · refine ⟨?_, fun he => absurd he hst, fun _ => ?_⟩ <;>
        simp [verifyOtpHandler, hp, hc, hst]
  · intro e
    simp [verifyOtpHandler, hp, hc]

/-- C6 witness: concrete instances at phone `"9876543210"`, code
`"1234"`: an approved result gives 200, a pending result gives 400 with
`"pending"` echoed, and an exception gives 500. -/
theorem verify_otp_status_mapping_witness :
    (verifyOtpHandler (some "9876543210") (some "1234")
        (.result "approved")).status = 200 ∧
    verifyOtpHandler (some "9876543210") (some "1234") (.result "pending") =
      ⟨400, .msgStatus "Invalid OTP. Please try again." "pending"⟩ ∧
    (verifyOtpHandler (some "9876543210") (some "1234")
        (.exn ⟨none, none, false⟩)).status = 500 := by
  have h := verify_otp_status_mapping (some "9876543210") (some "1234")
    (by decide) (by decide)
  exact ⟨((h.1 "approved").1).mpr rfl, (h.1 "pending").2.2 (by decide),
    h.2 ⟨none, none, false⟩⟩

set_option maxRecDepth 20000 in
/-- C7: with every optional `bookingDetails` field absent, the message
body is exactly the template text with the literal placeholders
(`N/A`, `Assigned Soon`) substituted, it contains no newline, no two
consecutive spaces, and no leading or trailing whitespace. -/
theorem booking_sms_all_placeholders_message :
    messageBody allAbsentBooking = .ok allAbsentMessage ∧
    (String.toList allAbsentMessage).all (fun c => !(c == '\n')) = true ∧
    hasTwoSpaces (String.toList allAbsentMessage) = false ∧
    jsTrim (String.toList allAbsentMessage) = String.toList allAbsentMessage :=
  ⟨rfl, by decide, by decide, by decide⟩

/-- The dot separator always occurs in a `toFixed(2)` rendering. -/
lemma dot_mem_toFixed2 (q : ℚ) : '.' ∈ (toFixed2 q).toList := by
  simp [toFixed2]

/-- C10: a present but non-numeric (string) `fareDetails.total` makes
the message construction throw on `toFixed`, and the handler answers
500 with the generic message instead of rendering `"N/A"`; the `"N/A"`
placeholder appears only when `total` is absent (`undefined`) or
`null`. -/
theorem string_fare_total_throws_500 (bd : BookingDetails) (f : FareDetails)
    (t : String) (hf : bd.fareDetails = some f) (ht : f.total = .str t)
    (s : String) (hs : ¬ s = "") (tp : Option String) (so : Option TwilioErr) :
    messageBody bd = .error () ∧
    sendBookingSmsHandler (some s) (some bd) tp so =
      ⟨500, .msg "Failed to send booking confirmation SMS."⟩ ∧
    (∀ g : FareDetails, fareText (some g) = .ok "N/A" →
      g.total = .undef ∨ g.total = .null) := by
  have hmb : messageBody bd = .error () := by
    simp [messageBody, hf, fareText, ht]
  have hfals : jsFalsyS (some s) = false := by simp [jsFalsyS]; exact hs
  refine ⟨hmb, by simp [sendBookingSmsHandler, hfals, hmb], ?_⟩
  intro g hg
  cases htot : g.total with
  | undef => exact Or.inl rfl
  | null => exact Or.inr rfl
  | num q =>
    exfalso
    simp only [fareText, htot] at hg
    have hdot := dot_mem_toFixed2 q
    have hne : ¬ toFixed2 q = "" := by
      intro he
      rw [he] at hdot
      exact List.not_mem_nil _ hdot
    rw [if_neg hne] at hg
    have hok : toFixed2 q = "N/A" := by
      injection hg
    rw [hok] at hdot
    exact (by decide : ¬ '.' ∈ String.toList "N/A") hdot
  | str t2 => simp [fareText, htot] at hg
  | bool b => simp [fareText, htot] at hg

/-- C10 witness: `fareDetails.total = "500"` (a string) at a valid
phone number gives the thrown-`TypeError` 500 response. -/
theorem string_fare_total_throws_500_witness :
    messageBody { fareDetails := some ⟨.str "500"⟩ } = .error () ∧
    sendBookingSmsHandler (some "9876543210")
        (some { fareDetails := some ⟨.str "500"⟩ })
        (some "+15550001111") none =
      ⟨500, .msg "Failed to send booking confirmation SMS."⟩ := by
  have h := string_fare_total_throws_500 { fareDetails := some ⟨.str "500"⟩ }
    ⟨.str "500"⟩ "500" rfl rfl "9876543210" (by decide)
    (some "+15550001111") none
  exact ⟨h.1, h.2.1⟩

end Fkdptaxi
